import Mathlib

/-!
Verification of the Luxuria backend's catalog-resolution fallback protocol.

The development shallowly embeds `src/main.py` (route handlers) and
`src/schemas.py` (payload schemas).  The repository's `database` module
(the document-store collaborator providing `get_documents` / `create_document`)
is not part of the sources, so it is modelled from the spec's description of
the store interface.
-/

namespace Luxuria

/-- A product document as stored/returned by the API (the dict shape used in
`main.py`: `_id`, `title`, `description`, `price`, `category`, `images`,
`in_stock`, `featured`).  Prices are exact decimal literals in the source, so
they are embedded as rationals. -/
structure Doc where
  _id : String
  title : String
  description : String
  price : ℚ
  category : String
  images : List String
  in_stock : Bool
  featured : Bool
deriving Repr, DecidableEq

/-- `sample_products()` from `src/main.py` lines 21-84: the Static Sample
Catalog, returned fresh on each call. -/
def sample_products : List Doc :=
  [ { _id := "demo-royal-chrono",
      title := "Royal Chrono 42mm",
      description := "Swiss automatic chronograph crafted in 18k rose gold with sapphire crystal.",
      price := 18990,
      category := "watches",
      images := ["https://images.unsplash.com/photo-1518544801976-3e188ea47b1d?q=80&w=1600&auto=format&fit=crop",
                 "https://images.unsplash.com/photo-1523170335258-f5ed11844a49?q=80&w=1600&auto=format&fit=crop"],
      in_stock := true,
      featured := true },
    { _id := "demo-diamond-aurora",
      title := "Aurora Diamond Necklace",
      description := "Hand-set VS1 diamonds on platinum. Timeless brilliance for evening glamour.",
      price := 12950,
      category := "jewelry",
      images := ["https://images.unsplash.com/photo-1520962918287-7448c2878f65?q=80&w=1600&auto=format&fit=crop"],
      in_stock := true,
      featured := true },
    { _id := "demo-maldives-escape",
      title := "Maldives Water Villa Escape",
      description := "5 nights in an overwater villa with private plunge pool and butler service.",
      price := 8990,
      category := "holidays",
      images := ["https://images.unsplash.com/photo-1500375592092-40eb2168fd21?q=80&w=1600&auto=format&fit=crop"],
      in_stock := true,
      featured := true },
    { _id := "demo-silk-sofa",
      title := "Silk & Walnut Lounge Sofa",
      description := "Handcrafted Italian sofa in walnut with bespoke silk upholstery.",
      price := 7490,
      category := "home",
      images := ["https://images.unsplash.com/photo-1501045661006-fcebe0257c3f?q=80&w=1600&auto=format&fit=crop"],
      in_stock := true,
      featured := false },
    { _id := "demo-platinum-massager",
      title := "Platinum Deep Tissue Massager",
      description := "Medical-grade percussive therapy device with intelligent pressure control.",
      price := 499,
      category := "health",
      images := ["https://images.unsplash.com/photo-1615634260167-c8cdede054de?q=80&w=1600&auto=format&fit=crop"],
      in_stock := true,
      featured := false } ]

/-- The filter document passed to `get_documents` in `src/main.py`: an optional
`_id` equality constraint, an optional `category` equality constraint and an
optional `featured` equality constraint (absent keys impose no constraint). -/
structure FilterQuery where
  _id : Option String := none
  category : Option String := none
  featured : Option Bool := none
deriving Repr, DecidableEq

/-- AND-combination of the (present) equality constraints of a filter query. -/
def matchesQuery (q : FilterQuery) (d : Doc) : Bool :=
  (match q._id with | none => true | some i => d._id = i) &&
  (match q.category with | none => true | some c => d.category = c) &&
  (match q.featured with | none => true | some b => d.featured = b)

/-- The state of the external document store as seen by the read path: whether
it is reachable, and the contents of its `product` collection. -/
structure Store where
  available : Bool
  products : List Doc
deriving Repr

/-- Modelled from the spec: the repository's `database` module (the source of
`get_documents`) is not under `src/`.  Per the spec, the store read
"attempt[s] to query the persistent store for documents matching the supplied
filters (filters are AND-combined; absent filters impose no constraint),
bounded to a maximum of 100 results", and any read against an unreachable
store raises (modelled as `Except.error`). -/
def get_documents (st : Store) (coll : String) (q : FilterQuery) (limit : Nat) :
    Except Unit (List Doc) :=
  if st.available then
    .ok (((if coll = "product" then st.products else []).filter (matchesQuery q)).take limit)
  else
    .error ()

/-- Python truthiness of an `Optional[str]`: `None` and `""` are falsy. -/
def pyTruthyStr : Option String → Bool
  | none => false
  | some s => s ≠ ""

/-- The `filter_query` construction of `list_products` (`src/main.py` lines
108-112): `if category: filter_query["category"] = category` and
`if featured is not None: filter_query["featured"] = featured`. -/
def build_filter_query (category : Option String) (featured : Option Bool) :
    FilterQuery :=
  { _id := none,
    category := if pyTruthyStr category then category else none,
    featured := featured }

/-- The per-document normalization of `list_products` / `get_product`:
`d["_id"] = str(d.get("_id"))` and `d["images"] = [str(x) for x in d["images"]]`. -/
def normalize_doc (d : Doc) : Doc :=
  { d with _id := toString d._id, images := d.images.map toString }

/-- The local fallback filtering of `list_products` (`src/main.py` lines
123-128): `if category: prods = [p for p in prods if p["category"] == category]`
then `if featured is not None: prods = [p for p in prods if p.get("featured") is featured]`. -/
def sample_fallback (category : Option String) (featured : Option Bool) : List Doc :=
  let prods := sample_products
  let prods :=
    match category with
    | some c => if c ≠ "" then prods.filter (fun p => p.category = c) else prods
    | none => prods
  let prods :=
    match featured with
    | some b => prods.filter (fun p => p.featured = b)
    | none => prods
  prods

/-- `list_products` (`src/main.py` lines 104-128): try the store first; on any
exception, or an empty result set, fall back to the locally filtered sample
catalog. -/
def list_products (st : Store) (category : Option String) (featured : Option Bool) :
    List Doc :=
  match get_documents st "product" (build_filter_query category featured) 100 with
  | .ok docs =>
      let docs := docs.map normalize_doc
      if docs.isEmpty then sample_fallback category featured else docs
  | .error _ => sample_fallback category featured

/-- `bson.ObjectId.is_valid` on a string input: exactly 24 hexadecimal digits. -/
def objectId_is_valid (s : String) : Bool :=
  s.length = 24 && s.data.all (fun c => c.isDigit || ('a' ≤ c && c ≤ 'f') || ('A' ≤ c && c ≤ 'F'))

/-- The result of a route handler: a successful JSON value, or an
`HTTPException(status_code, detail)`. -/
inductive ApiResult (α : Type) where
  | ok : α → ApiResult α
  | httpError (status : Nat) (detail : String) : ApiResult α
deriving Repr, DecidableEq

/-- `get_product` (`src/main.py` lines 130-149): if the id has the
store-native shape, try a single-document store lookup (any miss or exception
is swallowed); otherwise, or on miss/failure, search the sample catalog for an
exact id match; raise 404 "Product not found" when both paths are exhausted. -/
def get_product (st : Store) (product_id : String) : ApiResult Doc :=
  let db_hit : Option Doc :=
    if objectId_is_valid product_id then
      match get_documents st "product" { _id := some product_id } 1 with
      | .ok (d :: _) => some (normalize_doc d)
      | .ok [] => none
      | .error _ => none
    else none
  match db_hit with
  | some d => .ok d
  | none =>
      match sample_products.find? (fun p => p._id = product_id) with
      | some p => .ok p
      | none => .httpError 404 "Product not found"

/-- The `Product` payload schema from `src/schemas.py`. -/
structure Product where
  title : String
  description : Option String := none
  price : ℚ
  category : String
  images : List String := []
  in_stock : Bool := true
  featured : Bool := false
deriving Repr, DecidableEq

/-- The `DistributorApplication` payload schema from `src/schemas.py`. -/
structure DistributorApplication where
  name : String
  email : String
  company : Option String := none
  website : Option String := none
  location : Option String := none
  message : Option String := none
deriving Repr, DecidableEq

/-- The `OrderItem` payload schema from `src/schemas.py`. -/
structure OrderItem where
  product_id : String
  title : String
  quantity : Nat
  price : ℚ
  image : Option String := none
deriving Repr, DecidableEq

/-- The `CheckoutRequest` payload schema from `src/schemas.py`. -/
structure CheckoutRequest where
  items : List OrderItem
  customer_name : String
  customer_email : String
  address : String
  city : String
  country : String
deriving Repr, DecidableEq

/-- The state of the external document store as seen by a write: whether it is
reachable, the identifier it generates for a successful insert, and the message
of the exception it raises when the insert fails. -/
structure WriteStore where
  available : Bool
  next_id : String
  fail_msg : String
deriving Repr

/-- Modelled from the spec: the repository's `database` module (the source of
`create_document`) is not under `src/`.  Per the spec the store exposes an
`insert(collection, document)` capability that on success returns "the newly
generated identifier" and raises when "the store is unavailable"
(modelled as `Except.error` carrying the exception's message). -/
def create_document {α : Type} (st : WriteStore) (coll : String) (data : α) :
    Except String String :=
  if st.available then .ok st.next_id else .error st.fail_msg

/-- The success shape of `create_product`: `{"id": inserted_id}`. -/
structure CreateResp where
  id : String
deriving Repr, DecidableEq

/-- The response shape of `checkout`: `{"status": ..., "order_id": ...}`. -/
structure OrderResp where
  status : String
  order_id : String
deriving Repr, DecidableEq

/-- The response shape of `distributor_apply`:
`{"status": ..., "application_id": ...}`. -/
structure ApplicationResp where
  status : String
  application_id : String
deriving Repr, DecidableEq

/-- `create_product` (`src/main.py` lines 151-157): insert, and surface any
failure as `HTTPException(status_code=500, detail=str(e))`. -/
def create_product (st : WriteStore) (product : Product) : ApiResult CreateResp :=
  match create_document st "product" product with
  | .ok inserted_id => .ok { id := inserted_id }
  | .error e => .httpError 500 e

/-- `checkout` (`src/main.py` lines 159-166): insert the order, and on any
failure return the fixed demo acknowledgment. -/
def checkout (st : WriteStore) (data : CheckoutRequest) : OrderResp :=
  match create_document st "order" data with
  | .ok order_id => { status := "success", order_id := order_id }
  | .error _ => { status := "success", order_id := "demo-order-1234" }

/-- `distributor_apply` (`src/main.py` lines 168-174): insert the application,
and on any failure return the fixed demo acknowledgment. -/
def distributor_apply (st : WriteStore) (apply : DistributorApplication) :
    ApplicationResp :=
  match create_document st "distributorapplication" apply with
  | .ok app_id => { status := "received", application_id := app_id }
  | .error _ => { status := "received", application_id := "demo-application-1234" }

end Luxuria

namespace Luxuria

/-! ### Helper lemmas -/

/-- If the store read raises or returns an empty result set, `list_products`
takes the sample-catalog fallback path. -/
theorem list_products_fallback (st : Store) (c : Option String) (f : Option Bool)
    (h : get_documents st "product" (build_filter_query c f) 100 = .error () ∨
         get_documents st "product" (build_filter_query c f) 100 = .ok []) :
    list_products st c f = sample_fallback c f := by
  rcases h with h | h <;> simp [list_products, h]

/-- The local fallback never yields more items than the 5-item sample catalog. -/
theorem sample_fallback_length_le (c : Option String) (f : Option Bool) :
    (sample_fallback c f).length ≤ 5 := by
  have h5 : sample_products.length ≤ 5 := by decide
  unfold sample_fallback
  cases c with
  | none =>
    cases f with
    | none => exact h5
    | some b => exact le_trans (List.length_filter_le _ _) h5
  | some s =>
    by_cases hs : s = ""
    · simp only [hs, ne_eq, not_true_eq_false, if_false]
      cases f with
      | none => exact h5
      | some b => exact le_trans (List.length_filter_le _ _) h5
    · simp only [ne_eq, hs, not_false_eq_true, if_true]
      cases f with
      | none => exact le_trans (List.length_filter_le _ _) h5
      | some b =>
        exact le_trans (List.length_filter_le _ _)
          (le_trans (List.length_filter_le _ _) h5)

/-- The spec-side list filter, amended only in treating an explicitly given
empty-string category like an absent category filter: `category == c` when `c`
is given and non-empty, AND `featured == f` when `f` is given. -/
def specListFilter (c : Option String) (f : Option Bool) (p : Doc) : Bool :=
  (match c with
   | none => true
   | some s => if s = "" then true else p.category = s) &&
  (match f with
   | none => true
   | some b => p.featured = b)

/-- The fallback filtering agrees with the (amended) spec-side filter. -/
theorem sample_fallback_eq_filter (c : Option String) (f : Option Bool) :
    sample_fallback c f = sample_products.filter (specListFilter c f) := by
  unfold sample_fallback specListFilter
  cases c with
  | none =>
    cases f with
    | none => simp
    | some b => simp
  | some s =>
    by_cases hs : s = ""
    · subst hs
      cases f with
      | none => simp
      | some b => simp
    · cases f with
      | none => simp [hs]
      | some b =>
        simp only [ne_eq, hs, not_false_eq_true, if_true, List.filter_filter]
        exact List.filter_congr (fun a _ => by simp [if_neg hs, Bool.and_comm])

/-! ### Claim theorems -/

/-- C1 counterexample: with the store unreachable and the category filter given
as the empty string, the listing returns all 5 sample items rather than the
(empty) subset of samples whose category equals `""`. -/
theorem list_empty_category_counterexample :
    ¬ (list_products ⟨false, []⟩ (some "") none =
        sample_products.filter (fun p => p.category = "")) := by
  decide

/-- C1 (amended): when the store read raises or returns an empty result set,
listing returns exactly the subset of the 5 static items whose category equals
`c` (when `c` is given and non-empty; an explicitly empty `c` imposes no
constraint) and whose featured flag equals `f` (when `f` is given). -/
theorem list_products_fallback_exact (st : Store) (c : Option String)
    (f : Option Bool)
    (h : get_documents st "product" (build_filter_query c f) 100 = .error () ∨
         get_documents st "product" (build_filter_query c f) 100 = .ok []) :
    list_products st c f = sample_products.filter (specListFilter c f) := by
  rw [list_products_fallback st c f h, sample_fallback_eq_filter]

theorem list_products_fallback_exact_witness :
    list_products ⟨false, []⟩ (some "watches") none =
      sample_products.filter (specListFilter (some "watches") none) :=
  list_products_fallback_exact ⟨false, []⟩ (some "watches") none (Or.inl rfl)


/-- Fixed payloads used to instantiate the write endpoints at concrete inputs. -/
def demoProduct : Product :=
  { title := "Test Watch", price := 10, category := "watches" }

def demoCheckout : CheckoutRequest :=
  { items := [{ product_id := "demo-royal-chrono", title := "Royal Chrono 42mm",
                quantity := 1, price := 18990 }],
    customer_name := "Ada", customer_email := "ada@example.com",
    address := "1 Main St", city := "Lisbon", country := "PT" }

def demoApplication : DistributorApplication :=
  { name := "Ada", email := "ada@example.com" }

/-- C2 counterexample: at a concrete unavailable store, the create-product
endpoint surfaces a 500 server error instead of a success acknowledgment, so
not every write endpoint degrades to a synthetic success. -/
theorem create_product_not_degraded_counterexample :
    create_product ⟨false, "id-1", "db down"⟩ demoProduct =
      ApiResult.httpError 500 "db down" := rfl

/-- C2 (amended): when the store is unavailable, checkout and the distributor
application fall back to synthetic success acknowledgments, while create
product instead surfaces a 500 error carrying the failure message. -/
theorem write_endpoints_on_unavailable_store (st : WriteStore) (p : Product)
    (d : CheckoutRequest) (a : DistributorApplication)
    (h : st.available = false) :
    checkout st d = { status := "success", order_id := "demo-order-1234" } ∧
    distributor_apply st a =
      { status := "received", application_id := "demo-application-1234" } ∧
    create_product st p = .httpError 500 st.fail_msg := by
  refine ⟨?_, ?_, ?_⟩ <;>
    simp [checkout, distributor_apply, create_product, create_document, h]

theorem write_endpoints_on_unavailable_store_witness :
    checkout ⟨false, "id-1", "db down"⟩ demoCheckout =
      { status := "success", order_id := "demo-order-1234" } :=
  (write_endpoints_on_unavailable_store ⟨false, "id-1", "db down"⟩ demoProduct
    demoCheckout demoApplication rfl).1

/-- C3: when the store insert fails, create-product surfaces a 500-equivalent
server error carrying the underlying failure message, not a synthetic
success. -/
theorem create_product_surfaces_failure (st : WriteStore) (p : Product)
    (h : st.available = false) :
    create_product st p = .httpError 500 st.fail_msg := by
  simp [create_product, create_document, h]

theorem create_product_surfaces_failure_witness :
    create_product ⟨false, "id-9", "connection refused"⟩ demoProduct =
      ApiResult.httpError 500 "connection refused" :=
  create_product_surfaces_failure ⟨false, "id-9", "connection refused"⟩
    demoProduct rfl

/-- C4: checkout and distributor application never fail: on store-insert
failure they return exactly the fixed demo acknowledgments, and on success the
same statuses with the store-generated identifier. -/
theorem checkout_distributor_total (st : WriteStore) (d : CheckoutRequest)
    (a : DistributorApplication) :
    (st.available = false →
       checkout st d = { status := "success", order_id := "demo-order-1234" } ∧
       distributor_apply st a =
         { status := "received", application_id := "demo-application-1234" }) ∧
    (st.available = true →
       checkout st d = { status := "success", order_id := st.next_id } ∧
       distributor_apply st a =
         { status := "received", application_id := st.next_id }) := by
  constructor <;> intro h <;>
    exact ⟨by simp [checkout, create_document, h],
           by simp [distributor_apply, create_document, h]⟩

theorem checkout_distributor_total_witness :
    checkout ⟨false, "id-1", "down"⟩ demoCheckout =
      { status := "success", order_id := "demo-order-1234" } :=
  ((checkout_distributor_total ⟨false, "id-1", "down"⟩ demoCheckout
    demoApplication).1 rfl).1

/-- C5: with the store unavailable, detail lookup returns the static item whose
identifier matches exactly when one exists, and otherwise fails with a
404-equivalent error with message "Product not found". -/
theorem get_product_unavailable_store (st : Store) (pid : String)
    (h : st.available = false) :
    (∀ p, sample_products.find? (fun q => q._id = pid) = some p →
        get_product st pid = .ok p) ∧
    (sample_products.find? (fun q => q._id = pid) = none →
        get_product st pid = .httpError 404 "Product not found") := by
  have hdb : ∀ q l, get_documents st "product" q l = .error () := by
    intro q l
    simp [get_documents, h]
  constructor
  · intro p hp
    simp [get_product, hdb, hp]
  · intro hp
    simp [get_product, hdb, hp]

theorem get_product_unavailable_store_witness :
    get_product ⟨false, []⟩ "no-such-id" =
      ApiResult.httpError 404 "Product not found" :=
  (get_product_unavailable_store ⟨false, []⟩ "no-such-id" rfl).2 rfl

/-- C6: with the store read raising or returning an empty result set, listing
with an explicit featured=False includes the non-featured static items and
differs from listing with the featured filter omitted. -/
theorem featured_false_not_absent (st : Store)
    (h1 : get_documents st "product" (build_filter_query none (some false)) 100 = .error () ∨
          get_documents st "product" (build_filter_query none (some false)) 100 = .ok [])
    (h2 : get_documents st "product" (build_filter_query none none) 100 = .error () ∨
          get_documents st "product" (build_filter_query none none) 100 = .ok []) :
    (∀ p ∈ sample_products, p.featured = false →
        p ∈ list_products st none (some false)) ∧
    list_products st none (some false) ≠ list_products st none none := by
  rw [list_products_fallback st none (some false) h1,
      list_products_fallback st none none h2]
  constructor
  · intro p hp hf
    simp [sample_fallback, List.mem_filter, hp, hf]
  · decide

theorem featured_false_not_absent_witness :
    list_products ⟨false, []⟩ none (some false) ≠
      list_products ⟨false, []⟩ none none :=
  (featured_false_not_absent ⟨false, []⟩ (Or.inl rfl) (Or.inl rfl)).2

/-- C7: for an identifier of store-native shape whose store lookup raises or
misses, detail lookup falls through to an exact static-catalog search, and
errors only after both paths are exhausted. -/
theorem get_product_store_miss_falls_through (st : Store) (pid : String)
    (hvalid : objectId_is_valid pid = true)
    (hmiss : get_documents st "product" { _id := some pid } 1 = .error () ∨
             get_documents st "product" { _id := some pid } 1 = .ok []) :
    get_product st pid =
      match sample_products.find? (fun p => p._id = pid) with
      | some p => .ok p
      | none => .httpError 404 "Product not found" := by
  rcases hmiss with h | h <;> simp [get_product, hvalid, h]

theorem get_product_store_miss_falls_through_witness :
    get_product ⟨false, []⟩ "0123456789abcdef01234567" =
      ApiResult.httpError 404 "Product not found" := by
  rw [get_product_store_miss_falls_through ⟨false, []⟩ "0123456789abcdef01234567"
    (by decide) (Or.inl rfl)]
  rfl

/-- C8: for every store state and filter combination, the listing returns at
most 100 records: the store query is bounded to 100 results and the static
fallback holds only 5 items. -/
theorem list_products_at_most_100 (st : Store) (c : Option String)
    (f : Option Bool) :
    (list_products st c f).length ≤ 100 := by
  unfold list_products
  cases hd : get_documents st "product" (build_filter_query c f) 100 with
  | error e => exact le_trans (sample_fallback_length_le c f) (by norm_num)
  | ok docs =>
    have hlen : docs.length ≤ 100 := by
      unfold get_documents at hd
      by_cases hav : st.available
      · simp only [hav, if_true, Except.ok.injEq] at hd
        rw [← hd]
        simp [List.length_take]
      · simp [hav] at hd
    simp only []
    split
    · exact le_trans (sample_fallback_length_le c f) (by norm_num)
    · simpa using hlen

/-- C9: the static sample catalog always yields the same 5 items: 5 records
spanning 5 pairwise-distinct categories with pairwise-distinct identifiers,
each with a non-negative price and an identifier prefixed "demo-" that is
never a valid store-native id. -/
theorem sample_products_invariants :
    sample_products.length = 5 ∧
    (sample_products.map (fun p => p.category)).Nodup ∧
    (sample_products.map (fun p => p._id)).Nodup ∧
    ∀ p ∈ sample_products,
      0 ≤ p.price ∧ p._id.data.take 5 = "demo-".data ∧
      objectId_is_valid p._id = false := by
  decide

/-- C10: an explicitly given empty-string category filter behaves exactly like
an omitted category filter, for every store state and featured filter, on both
the store path and the fallback path. -/
theorem empty_category_like_absent (st : Store) (f : Option Bool) :
    list_products st (some "") f = list_products st none f := rfl

end Luxuria
